import Mathlib

/-!
Shallow embedding of the workbox v2 request router
(`src/packages/workbox-routing/src/lib/router.js`): the per-method route
table, route registration and unregistration, and request dispatch
(`handleRequest` / `_findHandlerAndParams`), together with theorems about
its precedence, normalization, fallback and failure-isolation behaviour.

Conventions of the embedding:
* JavaScript `undefined` is `Option.none`; a promise that has settled is a
  `PResult` (resolved with a response or rejected with an error); responses
  and errors are opaque and represented by `Nat`.
* `event.request.url` is represented already parsed (the `new URL(...)`
  call in `handleRequest` cannot fail on a `FetchEvent`'s request URL).
* A JavaScript `Map` of buckets is an association list in insertion order:
  `set` on a fresh key appends at the end, `set` on a present key updates
  in place, exactly as `Map.prototype.set` behaves.
* Reference identity of `Route` objects (used by `Array.prototype.indexOf`
  during unregistration) is modelled by a numeric `id` field: distinct
  route objects carry distinct ids.
-/

namespace Workbox

/-- A parsed URL as produced by `new URL(event.request.url)`.  The router
only inspects `protocol` (the scheme with its trailing colon, e.g.
`"https:"`); everything else is opaque. -/
structure URL where
  protocol : String
  rest : String := ""
deriving DecidableEq

/-- `event.request`: the HTTP method string and the request URL. -/
structure Request where
  method : String
  url : URL
deriving DecidableEq

/-- A `FetchEvent` carrying the request being dispatched.  The
`isInstance({event}, FetchEvent)` runtime check of `handleRequest` is
discharged by typing in the embedding. -/
structure FetchEvent where
  request : Request
deriving DecidableEq

/-- The value returned by a route's `match` predicate, classified exactly
the way `_findHandlerAndParams` inspects it:
* `absent` — any falsy JavaScript value (`undefined`, `null`, `false`,
  `0`, `NaN`, `""`): the `if (matchResult)` test fails, the route does not
  match;
* `arr xs` — a JavaScript `Array` (`Array.isArray(matchResult)`), always
  truthy, even when empty;
* `obj kvs` — a plain object (`matchResult.constructor === Object`),
  always truthy, even with no keys;
* `marker t` — any other truthy value (non-plain object, nonempty string,
  nonzero number, ...). -/
inductive MatchResult where
  | absent
  | arr (elems : List Nat)
  | obj (fields : List (String × Nat))
  | marker (tag : Nat)
deriving DecidableEq

/-- JavaScript truthiness of a `MatchResult`: the `if (matchResult)` test
on line 170 of router.js. -/
def MatchResult.truthy : MatchResult → Bool
  | .absent => false
  | _ => true

/-- A settled asynchronous result: a promise that resolved with a response
or rejected with an error.  Responses and errors are opaque `Nat`s. -/
inductive PResult where
  | resolved (response : Nat)
  | rejected (error : Nat)
deriving DecidableEq

/-- `Promise.prototype.catch`: a resolved promise passes through, a
rejected one is replaced by the recovery function's result. -/
def promiseCatch (p : PResult) (f : Nat → PResult) : PResult :=
  match p with
  | .resolved v => .resolved v
  | .rejected e => f e

/-- The context object handed to a handler.  The dispatch call on line 144
passes `{url, event, params}` (so `error` is absent); the catch call on
line 147 passes `{url, event, error}` (so `params` is absent). -/
structure HandlerContext where
  url : URL
  event : FetchEvent
  params : Option MatchResult := none
  error : Option Nat := none

/-- A handler capability: one `handle` operation from routing context to a
settled asynchronous result. -/
structure Handler where
  handle : HandlerContext → PResult

/-- Modelled from the spec: the `Route` class (`route.js`) is not under
`src/`; per spec §3 a route pairs a method identifier, a match
predicate/extractor and a handler, with reference identity (here the `id`
field) used for unregistration lookup.  `matchFn` embeds
`route.match({url, event})`. -/
structure Route where
  id : Nat
  method : String
  matchFn : URL → FetchEvent → MatchResult
  handler : Handler

/-- Modelled from the spec: an argument that the runtime shape checks
(`isInstance` / `isArrayOfClass` from `lib/assert`, not under `src/`) must
classify — either an actual `Route` instance or any other value
(`notRoute`), which the checks reject with a TypeMismatch error. -/
inductive RVal where
  | route (r : Route)
  | notRoute (tag : Nat)

/-- Modelled from the spec: `isArrayOfClass({routes}, Route)` succeeds
exactly when every element of the array is a `Route` instance. -/
def allRoutes (rvals : List RVal) : Bool :=
  rvals.all fun rv =>
    match rv with
    | .route _ => true
    | .notRoute _ => false

/-- The `Route` instances of a list of validated arguments. -/
def extractRoutes (rvals : List RVal) : List Route :=
  rvals.filterMap fun rv =>
    match rv with
    | .route r => some r
    | .notRoute _ => none

/-- The `this._routes` map: HTTP method name to array of registered
routes, as an association list in `Map` insertion order. -/
def RouteTable := List (String × List Route)

/-- `Map.prototype.get`: the bucket stored under a key, or `undefined`. -/
def mapGet : RouteTable → String → Option (List Route)
  | [], _ => none
  | p :: ps, k => if p.1 == k then some p.2 else mapGet ps k

/-- `Map.prototype.has`. -/
def mapHas (m : RouteTable) (k : String) : Bool :=
  (mapGet m k).isSome

/-- `Map.prototype.set`: update a present key in place, append a fresh
key at the end. -/
def mapSet : RouteTable → String → List Route → RouteTable
  | [], k, v => [(k, v)]
  | p :: ps, k, v => if p.1 == k then (p.1, v) :: ps else p :: mapSet ps k v

/-- `this._routes.get(method) || []` (line 167): an absent bucket is
treated as the empty sequence.  (A present empty array is truthy in
JavaScript, so `|| []` only replaces `undefined`.) -/
def getOrEmpty (tbl : RouteTable) (method : String) : List Route :=
  (mapGet tbl method).getD []

/-- One iteration of the `registerRoutes` loop (lines 275–282): create the
bucket if the method is new, then `unshift` the route onto its front. -/
def insertRoute (tbl : RouteTable) (route : Route) : RouteTable :=
  let tbl1 := if mapHas tbl route.method then tbl else mapSet tbl route.method []
  mapSet tbl1 route.method (route :: getOrEmpty tbl1 route.method)

/-- A diagnostic reported through `logHelper.error` during
unregistration.  Modelled from the spec: `log-helper.js` is not under
`src/`; per spec §4.2 these reports are non-fatal diagnostics. -/
inductive Diag where
  | noRoutesForMethod (method : String)
  | routeNotRegistered
deriving DecidableEq

/-- An exception thrown by a router operation:
* `typeMismatch` — a failed `isInstance` / `isArrayOfClass` shape check;
* `typeError` — a JavaScript `TypeError`, e.g. calling a method of
  `undefined`. -/
inductive JsError where
  | typeMismatch
  | typeError
deriving DecidableEq

/-- Dispatcher state: the route table plus the optional default and catch
handler slots. -/
structure Router where
  routes : RouteTable := []
  defaultHandler : Option Handler := none
  catchHandler : Option Handler := none

/-- `registerRoutes({routes})` (lines 272–283): validate the whole array
first (`isArrayOfClass`), then insert each route at the front of its
method's bucket, left to right.  A thrown error carries the router state
at the moment of the throw; the validation precedes every insertion, so a
TypeMismatch leaves the table untouched. -/
def registerRoutes (router : Router) (rvals : List RVal) :
    Except (JsError × Router) Router :=
  if allRoutes rvals then
    .ok { router with routes := (extractRoutes rvals).foldl insertRoute router.routes }
  else
    .error (.typeMismatch, router)

/-- `registerRoute({route})` (lines 296–300): `isInstance` check, then
delegate to `registerRoutes` with a singleton array. -/
def registerRoute (router : Router) (rv : RVal) :
    Except (JsError × Router) Router :=
  match rv with
  | .route _ => registerRoutes router [rv]
  | .notRoute _ => .error (.typeMismatch, router)

/-- `bucket.indexOf(route)` (line 330): index of the first entry that is
reference-identical to `route`, or `undefined` for `-1`. -/
def indexOfRoute (bucket : List Route) (route : Route) : Option Nat :=
  bucket.findIdx? fun x => x.id == route.id

/-- One iteration of the `unregisterRoutes` loop (lines 320–341).  When
the method has no bucket the code first logs a diagnostic, but then still
evaluates `this._routes.get(route.method).indexOf(route)` on `undefined`,
which throws a `TypeError`.  When the bucket exists, a found route is
spliced out and a missing one only logs a diagnostic. -/
def unregisterStep (router : Router) (diags : List Diag) (route : Route) :
    Except (JsError × Router × List Diag) (Router × List Diag) :=
  let diags1 := if mapHas router.routes route.method then diags
                else diags ++ [Diag.noRoutesForMethod route.method]
  match mapGet router.routes route.method with
  | none => .error (.typeError, router, diags1)
  | some bucket =>
    match indexOfRoute bucket route with
    | some i =>
      .ok ({ router with routes := mapSet router.routes route.method (bucket.eraseIdx i) },
           diags1)
    | none => .ok (router, diags1 ++ [Diag.routeNotRegistered])

/-- The `unregisterRoutes` loop over the validated routes, threading the
router state and accumulated diagnostics, and aborting at a throw. -/
def unregisterLoop : Router → List Diag → List Route →
    Except (JsError × Router × List Diag) (Router × List Diag)
  | router, diags, [] => .ok (router, diags)
  | router, diags, route :: rest =>
    match unregisterStep router diags route with
    | .ok (router1, diags1) => unregisterLoop router1 diags1 rest
    | .error e => .error e

/-- `unregisterRoutes({routes})` (lines 317–342): validate the array, then
run the unregistration loop. -/
def unregisterRoutes (router : Router) (rvals : List RVal) :
    Except (JsError × Router × List Diag) (Router × List Diag) :=
  if allRoutes rvals then
    unregisterLoop router [] (extractRoutes rvals)
  else
    .error (.typeMismatch, router, [])

/-- `unregisterRoute({route})` (lines 357–361). -/
def unregisterRoute (router : Router) (rv : RVal) :
    Except (JsError × Router × List Diag) (Router × List Diag) :=
  match rv with
  | .route _ => unregisterRoutes router [rv]
  | .notRoute _ => .error (.typeMismatch, router, [])

/-- `url.protocol.startsWith('http')` (line 124), embedded as the
character-level prefix test: a string starts with `"http"` exactly when
its character list has `"http"`'s character list as a prefix. -/
def protocolIsHttp (url : URL) : Bool :=
  List.isPrefixOf "http".toList url.protocol.toList

/-- Lines 180–187 of `_findHandlerAndParams`: an empty array or an empty
plain object becomes `undefined`; every other (truthy) match result is
kept unchanged. -/
def normalizeEmptyMatch : MatchResult → Option MatchResult
  | .arr [] => none
  | .obj [] => none
  | m => some m

/-- The `for (const route of routes)` loop of `_findHandlerAndParams`
(lines 168–196): first route whose match result is truthy wins; its
handler is returned together with the normalized match result. -/
def findMatching (url : URL) (event : FetchEvent) :
    List Route → Option Handler × Option MatchResult
  | [] => (none, none)
  | route :: rest =>
    let matchResult := route.matchFn url event
    if matchResult.truthy then
      (some route.handler, normalizeEmptyMatch matchResult)
    else
      findMatching url event rest

/-- `_findHandlerAndParams({event, url})` (lines 166–200). -/
def findHandlerAndParams (router : Router) (event : FetchEvent) (url : URL) :
    Option Handler × Option MatchResult :=
  findMatching url event (getOrEmpty router.routes event.request.method)

/-- Lines 144–149 of `handleRequest`: invoke the selected handler with
`{url, event, params}` and, when a catch handler is configured, attach it
so a rejection is replaced by the catch handler's result on
`{url, event, error}`. -/
def invokeHandler (router : Router) (handler : Handler) (url : URL)
    (event : FetchEvent) (params : Option MatchResult) : PResult :=
  let responsePromise := handler.handle { url := url, event := event, params := params }
  match router.catchHandler with
  | some catchH =>
    promiseCatch responsePromise fun error =>
      catchH.handle { url := url, event := event, error := some error }
  | none => responsePromise

/-- Lines 135–143 of `handleRequest`: the matched route's handler, or the
default handler when no route matched, together with the params to pass
(`undefined` when falling back to the default handler). -/
def selectHandler (router : Router) (event : FetchEvent) (url : URL) :
    Option (Handler × Option MatchResult) :=
  let fp := findHandlerAndParams router event url
  match fp.1 with
  | some handler => some (handler, fp.2)
  | none =>
    match router.defaultHandler with
    | some handler => some (handler, fp.2)
    | none => none

/-- `handleRequest({event})` (lines 121–152): refuse URLs whose protocol
does not start with `"http"`, select a handler, dispatch, and return the
(possibly catch-wrapped) promise — or `undefined` when no handler was
selected. -/
def handleRequest (router : Router) (event : FetchEvent) : Option PResult :=
  let url := event.request.url
  if protocolIsHttp url then
    match selectHandler router event url with
    | some (handler, params) => some (invokeHandler router handler url event params)
    | none => none
  else
    none

/-- State-passing form of the `_findHandlerAndParams` loop: the source
only reads `this`, so the state is threaded through every iteration
untouched.  Used to state the frame property of `handleRequest`. -/
def findMatchingS : Router → URL → FetchEvent → List Route →
    (Option Handler × Option MatchResult) × Router
  | router, _, _, [] => ((none, none), router)
  | router, url, event, route :: rest =>
    let matchResult := route.matchFn url event
    if matchResult.truthy then
      ((some route.handler, normalizeEmptyMatch matchResult), router)
    else
      findMatchingS router url event rest

/-- State-passing form of `handleRequest`: each step receives the router
state left by the previous step, mirroring the source statement by
statement (none of which assigns to `this._routes`, `this.defaultHandler`
or `this.catchHandler`). -/
def handleRequestS (router : Router) (event : FetchEvent) :
    Option PResult × Router :=
  let url := event.request.url
  if protocolIsHttp url then
    match findMatchingS router url event (getOrEmpty router.routes event.request.method) with
    | (fp, router1) =>
      match fp.1 with
      | some handler => (some (invokeHandler router1 handler url event fp.2), router1)
      | none =>
        match router1.defaultHandler with
        | some handler => (some (invokeHandler router1 handler url event fp.2), router1)
        | none => (none, router1)
  else
    (none, router)

/-! ### Basic lemmas about the route table and the matching loop -/

theorem mapGet_mapSet_self (m : RouteTable) (k : String) (v : List Route) :
    mapGet (mapSet m k v) k = some v := by
  induction m with
  | nil => simp [mapSet, mapGet]
  | cons p ps ih =>
    by_cases h : p.1 = k
    · simp [mapSet, mapGet, h]
    · simp [mapSet, mapGet, h, ih]

theorem mapGet_mapSet_ne (m : RouteTable) (k k' : String) (v : List Route)
    (h : k' ≠ k) : mapGet (mapSet m k v) k' = mapGet m k' := by
  induction m with
  | nil => simp [mapSet, mapGet, Ne.symm h]
  | cons p ps ih =>
    by_cases hp : p.1 = k
    · simp [mapSet, mapGet, hp, Ne.symm h]
    · simp [mapSet, mapGet, hp, ih]

theorem mapGet_eq_none_of_not_has (m : RouteTable) (k : String)
    (h : mapHas m k = false) : mapGet m k = none := by
  unfold mapHas at h
  cases hg : mapGet m k with
  | none => rfl
  | some v => rw [hg] at h; simp at h

theorem getOrEmpty_insertRoute (tbl : RouteTable) (r : Route) (m : String) :
    getOrEmpty (insertRoute tbl r) m =
      if r.method = m then r :: getOrEmpty tbl m else getOrEmpty tbl m := by
  unfold insertRoute
  cases hh : mapHas tbl r.method with
  | true =>
    by_cases hk : r.method = m
    · subst hk
      simp [hh, getOrEmpty, mapGet_mapSet_self]
    · simp [hh, hk, getOrEmpty, mapGet_mapSet_ne _ _ _ _ (Ne.symm hk)]
  | false =>
    have h0 : mapGet tbl r.method = none := mapGet_eq_none_of_not_has tbl r.method hh
    by_cases hk : r.method = m
    · subst hk
      simp [hh, getOrEmpty, mapGet_mapSet_self, h0]
    · simp [hh, hk, getOrEmpty, mapGet_mapSet_ne _ _ _ _ (Ne.symm hk)]

theorem getOrEmpty_foldl_insertRoute (rs : List Route) :
    ∀ (tbl : RouteTable) (m : String),
      getOrEmpty (rs.foldl insertRoute tbl) m =
        (rs.filter fun r => r.method == m).reverse ++ getOrEmpty tbl m := by
  induction rs with
  | nil => intro tbl m; simp
  | cons r rest ih =>
    intro tbl m
    rw [List.foldl_cons, ih, List.filter_cons]
    by_cases h : r.method = m
    · simp [h, getOrEmpty_insertRoute]
    · simp [h, getOrEmpty_insertRoute]

theorem findMatching_of_no_match (url : URL) (event : FetchEvent) (l : List Route)
    (h : ∀ r ∈ l, (r.matchFn url event).truthy = false) :
    findMatching url event l = (none, none) := by
  induction l with
  | nil => rfl
  | cons r rest ih =>
    have hr := h r (List.mem_cons_self r rest)
    simp only [findMatching, hr, Bool.false_eq_true, if_false]
    exact ih fun x hx => h x (List.mem_cons_of_mem r hx)

theorem findMatching_append (url : URL) (event : FetchEvent) (pre l : List Route)
    (h : ∀ r ∈ pre, (r.matchFn url event).truthy = false) :
    findMatching url event (pre ++ l) = findMatching url event l := by
  induction pre with
  | nil => rfl
  | cons r rest ih =>
    have hr := h r (List.mem_cons_self r rest)
    simp only [List.cons_append, findMatching, hr, Bool.false_eq_true, if_false]
    exact ih fun x hx => h x (List.mem_cons_of_mem r hx)

theorem registerRoute_route (router : Router) (r : Route) :
    registerRoute router (RVal.route r) =
      .ok { router with routes := insertRoute router.routes r } := rfl

theorem allRoutes_map_route (rs : List Route) :
    allRoutes (rs.map RVal.route) = true := by
  induction rs with
  | nil => rfl
  | cons r rest ih =>
    simp only [allRoutes, List.map_cons, List.all_cons, Bool.true_and]
    simp only [allRoutes] at ih
    exact ih

theorem extractRoutes_map_route (rs : List Route) :
    extractRoutes (rs.map RVal.route) = rs := by
  induction rs with
  | nil => rfl
  | cons r rest ih =>
    simp only [extractRoutes, List.map_cons, List.filterMap_cons]
    simp only [extractRoutes] at ih
    simp [ih]

theorem registerRoutes_map_ok (router : Router) (rs : List Route) :
    registerRoutes router (rs.map RVal.route) =
      .ok { router with routes := rs.foldl insertRoute router.routes } := by
  simp [registerRoutes, allRoutes_map_route, extractRoutes_map_route]

theorem registerRoutes_eq_foldl_registerRoute (rs : List Route) :
    ∀ router : Router,
      rs.foldl (fun acc r => acc.bind fun ρ => registerRoute ρ (RVal.route r))
        (Except.ok router) =
      registerRoutes router (rs.map RVal.route) := by
  induction rs with
  | nil => intro router; rw [registerRoutes_map_ok]; rfl
  | cons r rest ih =>
    intro router
    rw [List.foldl_cons]
    have hbind : (Except.ok router : Except (JsError × Router) Router).bind
        (fun ρ => registerRoute ρ (RVal.route r)) =
        Except.ok { router with routes := insertRoute router.routes r } := rfl
    rw [hbind, ih, registerRoutes_map_ok, registerRoutes_map_ok]
    simp [List.foldl_cons]

theorem allRoutes_eq_false_of_mem (rvals : List RVal) (t : Nat)
    (h : RVal.notRoute t ∈ rvals) : allRoutes rvals = false := by
  induction rvals with
  | nil => cases h
  | cons rv rest ih =>
    rcases List.mem_cons.mp h with h1 | h2
    · subst h1; simp [allRoutes]
    · have hrest := ih h2
      simp only [allRoutes, List.all_cons] at hrest ⊢
      simp [hrest]

theorem findMatchingS_eq (router : Router) (url : URL) (event : FetchEvent)
    (l : List Route) :
    findMatchingS router url event l = (findMatching url event l, router) := by
  induction l with
  | nil => rfl
  | cons r rest ih =>
    cases h : (r.matchFn url event).truthy <;>
      simp [findMatchingS, findMatching, h, ih]

/-! ### Concrete instances used by the witnesses -/

def handlerA : Handler := ⟨fun _ => .resolved 1⟩

def handlerB : Handler := ⟨fun _ => .resolved 2⟩

def rejectingHandler : Handler := ⟨fun _ => .rejected 42⟩

def recoveryHandler : Handler := ⟨fun ctx => .resolved (100 + ctx.error.getD 0)⟩

def routeA : Route := ⟨1, "GET", fun _ _ => .marker 1, handlerA⟩

def routeB : Route := ⟨2, "GET", fun _ _ => .marker 2, handlerB⟩

def routeEmptyArr : Route := ⟨3, "GET", fun _ _ => .arr [], handlerA⟩

def routePost : Route := ⟨4, "POST", fun _ _ => .marker 3, handlerA⟩

def routeFailing : Route := ⟨5, "GET", fun _ _ => .marker 1, rejectingHandler⟩

def routeNever : Route := ⟨6, "GET", fun _ _ => .absent, handlerA⟩

def getEvent : FetchEvent := ⟨⟨"GET", ⟨"https:", "example.com/images/logo.png"⟩⟩⟩

def extensionEvent : FetchEvent := ⟨⟨"GET", ⟨"chrome-extension:", "abc"⟩⟩⟩

def router0 : Router := {}

def router1 : Router := { routes := [("GET", [routeA])] }

def router2 : Router := { routes := [("GET", [routeB, routeA])] }

def routerEmptyMatch : Router := { routes := [("GET", [routeEmptyArr])] }

def routerFail : Router :=
  { routes := [("GET", [routeFailing])], catchHandler := some recoveryHandler }

def routerNever : Router := { routes := [("GET", [routeNever])] }

def routerDefault : Router :=
  { routes := [("GET", [routeNever])], defaultHandler := some handlerB }

/-! ### The claims -/

/-- C1: if two routes on the same method are registered one after the
other and both match a request, `handleRequest` uses the later-registered
route's handler — registration inserts at the front of the method bucket,
and the matching loop takes the first truthy match. -/
theorem c1_most_recent_route_wins (r0 r1 r2 : Router) (ra rb : Route)
    (event : FetchEvent)
    (hreg1 : registerRoute r0 (RVal.route ra) = .ok r1)
    (hreg2 : registerRoute r1 (RVal.route rb) = .ok r2)
    (hm1 : ra.method = event.request.method)
    (hm2 : rb.method = event.request.method)
    (_hmatch1 : (ra.matchFn event.request.url event).truthy = true)
    (hmatch2 : (rb.matchFn event.request.url event).truthy = true)
    (hhttp : protocolIsHttp event.request.url = true) :
    (findHandlerAndParams r2 event event.request.url).1 = some rb.handler ∧
    ∃ params, handleRequest r2 event =
      some (invokeHandler r2 rb.handler event.request.url event params) := by
  rw [registerRoute_route] at hreg1 hreg2
  have e1 : { r0 with routes := insertRoute r0.routes ra } = r1 :=
    Except.ok.inj hreg1
  have e2 : { r1 with routes := insertRoute r1.routes rb } = r2 :=
    Except.ok.inj hreg2
  have hb : getOrEmpty r2.routes event.request.method =
      rb :: ra :: getOrEmpty r0.routes event.request.method := by
    rw [← e2, ← e1]
    simp [getOrEmpty_insertRoute, hm1, hm2]
  have hfind : findHandlerAndParams r2 event event.request.url =
      (some rb.handler, normalizeEmptyMatch (rb.matchFn event.request.url event)) := by
    unfold findHandlerAndParams
    rw [hb]
    simp [findMatching, hmatch2]
  refine ⟨by rw [hfind], normalizeEmptyMatch (rb.matchFn event.request.url event), ?_⟩
  unfold handleRequest selectHandler
  simp [hhttp, hfind]

/-- Witness for C1 at concrete routes `routeA`, `routeB` and a GET
request. -/
theorem c1_witness :
    registerRoute router0 (RVal.route routeA) = .ok router1 ∧
    registerRoute router1 (RVal.route routeB) = .ok router2 ∧
    ((findHandlerAndParams router2 getEvent getEvent.request.url).1 = some routeB.handler ∧
      ∃ params, handleRequest router2 getEvent =
        some (invokeHandler router2 routeB.handler getEvent.request.url getEvent params)) :=
  ⟨rfl, rfl,
    c1_most_recent_route_wins router0 router1 router2 routeA routeB getEvent
      rfl rfl rfl rfl rfl rfl rfl⟩

/-- C2: the claim says unregistering a route whose method has no bucket
returns normally with only a diagnostic.  The code does log the
diagnostic, but then still evaluates
`this._routes.get(route.method).indexOf(route)` on `undefined` and throws
a `TypeError` — so the batch is aborted instead of continuing.  This
theorem evaluates the embedding at the failing input: a router holding
only a GET bucket, asked to unregister a POST route. -/
theorem c2_unregister_missing_bucket_throws :
    unregisterRoutes router1 [RVal.route routePost] =
      .error (.typeError, router1, [Diag.noRoutesForMethod "POST"]) ∧
    unregisterRoute router1 (RVal.route routePost) =
      .error (.typeError, router1, [Diag.noRoutesForMethod "POST"]) ∧
    unregisterRoutes router1 [RVal.route routeB] =
      .ok (router1, [Diag.routeNotRegistered]) :=
  ⟨rfl, rfl, rfl⟩

/-- C3: when the winning route's match result is an empty array or an
empty plain object, the params component handed on to the handler is
`undefined`; every other truthy match result is passed through
unchanged. -/
theorem c3_empty_match_normalized (router : Router) (event : FetchEvent)
    (url : URL) (pre post : List Route) (r : Route)
    (hb : getOrEmpty router.routes event.request.method = pre ++ r :: post)
    (hpre : ∀ p ∈ pre, (p.matchFn url event).truthy = false)
    (hr : (r.matchFn url event).truthy = true) :
    (findHandlerAndParams router event url).1 = some r.handler ∧
    ((r.matchFn url event = .arr [] ∨ r.matchFn url event = .obj []) →
      (findHandlerAndParams router event url).2 = none) ∧
    (r.matchFn url event ≠ .arr [] → r.matchFn url event ≠ .obj [] →
      (findHandlerAndParams router event url).2 = some (r.matchFn url event)) := by
  have hfind : findHandlerAndParams router event url =
      (some r.handler, normalizeEmptyMatch (r.matchFn url event)) := by
    unfold findHandlerAndParams
    rw [hb, findMatching_append url event pre (r :: post) hpre]
    simp [findMatching, hr]
  refine ⟨by rw [hfind], ?_, ?_⟩
  · intro h
    rw [hfind]
    rcases h with h | h <;> simp [h, normalizeEmptyMatch]
  · intro h1 h2
    rw [hfind]
    cases hm : r.matchFn url event with
    | absent => rw [hm] at hr; simp [MatchResult.truthy] at hr
    | arr xs =>
      cases xs with
      | nil => rw [hm] at h1; exact absurd rfl h1
      | cons a as => simp [normalizeEmptyMatch]
    | obj fs =>
      cases fs with
      | nil => rw [hm] at h2; exact absurd rfl h2
      | cons kv rest => simp [normalizeEmptyMatch]
    | marker t => simp [normalizeEmptyMatch]

/-- Witness for C3 at a route whose match result is the empty array. -/
theorem c3_witness :
    getOrEmpty routerEmptyMatch.routes getEvent.request.method =
      [] ++ routeEmptyArr :: [] ∧
    ((findHandlerAndParams routerEmptyMatch getEvent getEvent.request.url).1 =
        some routeEmptyArr.handler ∧
      ((routeEmptyArr.matchFn getEvent.request.url getEvent = .arr [] ∨
          routeEmptyArr.matchFn getEvent.request.url getEvent = .obj []) →
        (findHandlerAndParams routerEmptyMatch getEvent getEvent.request.url).2 = none) ∧
      (routeEmptyArr.matchFn getEvent.request.url getEvent ≠ .arr [] →
        routeEmptyArr.matchFn getEvent.request.url getEvent ≠ .obj [] →
        (findHandlerAndParams routerEmptyMatch getEvent getEvent.request.url).2 =
          some (routeEmptyArr.matchFn getEvent.request.url getEvent))) :=
  ⟨rfl,
    c3_empty_match_normalized routerEmptyMatch getEvent getEvent.request.url
      [] [] routeEmptyArr rfl (by intro p hp; cases hp) rfl⟩

/-- C4: a request whose URL scheme does not start with `"http"` is
refused before the route table is consulted: `handleRequest` returns
`undefined` for every router, whatever routes, default handler or catch
handler it holds. -/
theorem c4_non_http_scheme_returns_none (event : FetchEvent)
    (h : protocolIsHttp event.request.url = false) :
    ∀ router : Router, handleRequest router event = none := by
  intro router
  unfold handleRequest
  simp [h]

/-- Witness for C4 at a `chrome-extension:` URL against a router with
registered routes. -/
theorem c4_witness :
    protocolIsHttp extensionEvent.request.url = false ∧
    handleRequest router2 extensionEvent = none :=
  ⟨rfl, c4_non_http_scheme_returns_none extensionEvent rfl router2⟩

/-- C5: when the selected handler's promise rejects, a configured catch
handler's result (invoked with `{url, event, error}`) replaces the
failure; with no catch handler the rejection propagates unchanged. -/
theorem c5_catch_handler_substitution (router : Router) (event : FetchEvent)
    (hd : Handler) (params : Option MatchResult) (e : Nat)
    (hhttp : protocolIsHttp event.request.url = true)
    (hsel : selectHandler router event event.request.url = some (hd, params))
    (hfail : hd.handle { url := event.request.url, event := event, params := params } =
      .rejected e) :
    (∀ c, router.catchHandler = some c →
      handleRequest router event =
        some (c.handle { url := event.request.url, event := event, error := some e })) ∧
    (router.catchHandler = none → handleRequest router event = some (.rejected e)) := by
  constructor
  · intro c hc
    unfold handleRequest invokeHandler
    simp [hhttp, hsel, hc, hfail, promiseCatch]
  · intro hc
    unfold handleRequest invokeHandler
    simp [hhttp, hsel, hc, hfail]

/-- Witness for C5: a route whose handler rejects with error 42 and a
catch handler that resolves with 100 plus the error it was given. -/
theorem c5_witness :
    selectHandler routerFail getEvent getEvent.request.url =
      some (rejectingHandler, some (.marker 1)) ∧
    rejectingHandler.handle
      { url := getEvent.request.url, event := getEvent, params := some (.marker 1) } =
      .rejected 42 ∧
    ((∀ c, routerFail.catchHandler = some c →
      handleRequest routerFail getEvent =
        some (c.handle { url := getEvent.request.url, event := getEvent, error := some 42 })) ∧
    (routerFail.catchHandler = none →
      handleRequest routerFail getEvent = some (.rejected 42))) :=
  ⟨rfl, rfl,
    c5_catch_handler_substitution routerFail getEvent rejectingHandler
      (some (.marker 1)) 42 rfl rfl rfl⟩

/-- C6: on an HTTP-family URL, when no route of the request's method
matches and no default handler is configured, `handleRequest` returns
`undefined` and no handler is invoked. -/
theorem c6_no_match_no_default_returns_none (router : Router) (event : FetchEvent)
    (hhttp : protocolIsHttp event.request.url = true)
    (hnone : ∀ r ∈ getOrEmpty router.routes event.request.method,
      (r.matchFn event.request.url event).truthy = false)
    (hdef : router.defaultHandler = none) :
    handleRequest router event = none := by
  have hfind : findHandlerAndParams router event event.request.url = (none, none) := by
    unfold findHandlerAndParams
    exact findMatching_of_no_match _ _ _ hnone
  unfold handleRequest selectHandler
  simp [hhttp, hfind, hdef]

/-- Witness for C6: a router holding one never-matching GET route and no
default handler. -/
theorem c6_witness :
    (∀ r ∈ getOrEmpty routerNever.routes getEvent.request.method,
      (r.matchFn getEvent.request.url getEvent).truthy = false) ∧
    routerNever.defaultHandler = none ∧
    handleRequest routerNever getEvent = none := by
  have hnone : ∀ r ∈ getOrEmpty routerNever.routes getEvent.request.method,
      (r.matchFn getEvent.request.url getEvent).truthy = false := by
    intro r hr
    simp only [routerNever, getOrEmpty, mapGet, getEvent] at hr
    simp only [List.mem_singleton.mp (by simpa using hr)]
    rfl
  exact ⟨hnone, rfl, c6_no_match_no_default_returns_none routerNever getEvent rfl hnone rfl⟩

/-- C7: on an HTTP-family URL, when no route matches but a default
handler is configured, `handleRequest` dispatches to the default handler
with `undefined` params, subject to the same catch-handler wrapping as a
route handler. -/
theorem c7_default_handler_used (router : Router) (event : FetchEvent) (d : Handler)
    (hhttp : protocolIsHttp event.request.url = true)
    (hnone : ∀ r ∈ getOrEmpty router.routes event.request.method,
      (r.matchFn event.request.url event).truthy = false)
    (hdef : router.defaultHandler = some d) :
    handleRequest router event =
      some (invokeHandler router d event.request.url event none) := by
  have hfind : findHandlerAndParams router event event.request.url = (none, none) := by
    unfold findHandlerAndParams
    exact findMatching_of_no_match _ _ _ hnone
  unfold handleRequest selectHandler
  simp [hhttp, hfind, hdef]

/-- Witness for C7: a router with one never-matching route and `handlerB`
as default handler. -/
theorem c7_witness :
    (∀ r ∈ getOrEmpty routerDefault.routes getEvent.request.method,
      (r.matchFn getEvent.request.url getEvent).truthy = false) ∧
    routerDefault.defaultHandler = some handlerB ∧
    handleRequest routerDefault getEvent =
      some (invokeHandler routerDefault handlerB getEvent.request.url getEvent none) := by
  have hnone : ∀ r ∈ getOrEmpty routerDefault.routes getEvent.request.method,
      (r.matchFn getEvent.request.url getEvent).truthy = false := by
    intro r hr
    simp only [routerDefault, getOrEmpty, mapGet, getEvent] at hr
    simp only [List.mem_singleton.mp (by simpa using hr)]
    rfl
  exact ⟨hnone, rfl, c7_default_handler_used routerDefault getEvent handlerB rfl hnone rfl⟩

/-- C8: `registerRoutes` on a batch of valid routes equals folding
`registerRoute` over the batch left to right, and afterwards every
method's bucket holds the batch's routes for that method in reverse input
order in front of the previously registered ones — so the last element of
the batch is checked first. -/
theorem c8_registerRoutes_batch_order (router : Router) (rs : List Route) :
    registerRoutes router (rs.map RVal.route) =
      .ok { router with routes := rs.foldl insertRoute router.routes } ∧
    registerRoutes router (rs.map RVal.route) =
      rs.foldl (fun acc r => acc.bind fun ρ => registerRoute ρ (RVal.route r))
        (Except.ok router) ∧
    ∀ m : String,
      getOrEmpty (rs.foldl insertRoute router.routes) m =
        (rs.filter fun r => r.method == m).reverse ++ getOrEmpty router.routes m :=
  ⟨registerRoutes_map_ok router rs,
    (registerRoutes_eq_foldl_registerRoute rs router).symm,
    fun m => getOrEmpty_foldl_insertRoute rs router.routes m⟩

/-- C9: `registerRoutes` validates the whole batch before touching the
route table, so a batch containing a non-route value fails with a
TypeMismatch error that carries the router state at the throw — the
unchanged input router; no prefix of the batch is registered. -/
theorem c9_registerRoutes_atomic_on_type_mismatch (router : Router)
    (rvals : List RVal) (t : Nat) (hmem : RVal.notRoute t ∈ rvals) :
    registerRoutes router rvals = .error (.typeMismatch, router) := by
  unfold registerRoutes
  simp [allRoutes_eq_false_of_mem rvals t hmem]

/-- Witness for C9: a batch with a valid route followed by a non-route
value fails atomically on the empty router. -/
theorem c9_witness :
    RVal.notRoute 7 ∈ [RVal.route routeA, RVal.notRoute 7] ∧
    registerRoutes router0 [RVal.route routeA, RVal.notRoute 7] =
      .error (.typeMismatch, router0) :=
  ⟨List.mem_cons_of_mem _ (List.mem_cons_self _ _),
    c9_registerRoutes_atomic_on_type_mismatch router0 _ 7
      (List.mem_cons_of_mem _ (List.mem_cons_self _ _))⟩

/-- C10: `handleRequest` never mutates the dispatcher: the state-passing
translation returns exactly the input router (route table, default and
catch handler slots) alongside the pure result. -/
theorem c10_handleRequest_preserves_state (router : Router) (event : FetchEvent) :
    handleRequestS router event = (handleRequest router event, router) := by
  unfold handleRequestS handleRequest selectHandler findHandlerAndParams
  simp only [findMatchingS_eq]
  cases hhttp : protocolIsHttp event.request.url
  · simp
  · cases hfp : findMatching event.request.url event
        (getOrEmpty router.routes event.request.method) with
    | mk fst snd =>
      cases fst with
      | some hd => simp [hfp]
      | none =>
        cases hdef : router.defaultHandler with
        | some d => simp [hfp, hdef]
        | none => simp [hfp, hdef]

end Workbox
